import Mathlib

/-!
Verification of the dev-server process supervisor in
`packages/next/src/cli/next-dev.ts`.

The file shallowly embeds the supervisor: the Shutdown Coordinator
(`handleSessionStop`), the Process Supervisor (`startServer` with its
message and exit handlers), the retry-permission computation
(`allowRetry`), the reserved-port check in `nextDev`, and the HTTPS
certificate provisioning in `runDevServer`.  Side effects (kill, fork,
send, telemetry, stdout writes, process exit) are represented as values
of an `Effect` type; every function returns the list of effects it
performs, in program order.
-/

namespace NextDev

/-- TLS material attached to the start options when `--experimental-https`
is given: either the two explicit file paths (resolved to absolute paths)
or a self-signed certificate generated for the resolved hostname
(`createSelfSignedCertificate(host)` is external; we record which host it
was bound to). -/
inductive Certificate
| explicit (key cert : String)
| selfSigned (host : Option String)
deriving DecidableEq

/-- The `StartServerOptions` value assembled by `nextDev` and delivered to
the worker at handshake time (field for field the object literal
`devServerOptions` in `next-dev.ts`, plus the optional
`selfSignedCertificate` added by `runDevServer`). -/
structure StartServerOptions where
  dir : String
  port : Nat
  allowRetry : Bool
  isDev : Bool
  hostname : Option String
  isExperimentalTestProxy : Bool
  envInfo : List String
  expFeatureInfo : List String
  selfSignedCertificate : Option Certificate := none
deriving DecidableEq

/-- Argument of `ChildProcess.kill`: either a signal name (string) or a
number.  `handleSessionStop` calls `child.kill((signal as any) || 0)`. -/
inductive KillArg
| sig (name : String)
| num (n : Nat)
deriving DecidableEq

/-- The one supervisor-to-worker message shape:
`child.send({ nextWorkerOptions: options })`. -/
inductive WorkerMsgOut
| deliverOptions (opts : StartServerOptions)
deriving DecidableEq

/-- Observable side effects of the supervisor, in the order the code
performs them. -/
inductive Effect
| kill (pid : Nat) (arg : KillArg)
| telemetryRecord
| flushDetached
| uploadTrace
| writeStdout (s : String)
| exitProcess (code : Nat)
| spawn (pid : Nat) (opts : StartServerOptions)
| send (pid : Nat) (msg : WorkerMsgOut)
| resolve (promiseId : Nat)
| invokeShutdown (signal : Option String)
| printAndExit (msg : String) (code : Nat)
| printHelp
| logWarn (msg : String)
| generateCert (host : Option String)
| consoleError
deriving DecidableEq

/-- The show-cursor escape sequence written during shutdown
(`process.stdout.write('\x1B[?25h')`). -/
def showCursor : String := "\x1B[?25h"

/-- JavaScript truthiness of a possibly-undefined string value
(`undefined` and the empty string are falsy). -/
def truthyStr (o : Option String) : Bool :=
  match o with
  | none => false
  | some s => s != ""

/-- The argument `handleSessionStop` passes to `child.kill`:
`(signal as any) || 0`, i.e. the signal name when it is a non-empty
string and the number `0` otherwise. -/
def killArgOf (signal : Option String) : KillArg :=
  match signal with
  | some s => if s = "" then KillArg.num 0 else KillArg.sig s
  | none => KillArg.num 0

/-- The steps inside the `try` block of `handleSessionStop` that can
throw: loading the config, constructing the `Telemetry` client, detecting
the routing directories (`findPagesDir`), and recording the event. -/
inductive TryStep
| loadConfigStep
| telemetryCtor
| pagesDirDetect
| recordStep
deriving DecidableEq

/-- Ambient module-level state and failure scenario observed by one run of
`handleSessionStop`: the worker handle (`child`), the
`sessionStopHandled` flag, whether the module-level `config` has already
been assigned, whether the `telemetry` / `pagesDir`+`appDir` trace
globals are present, the `traceUploadUrl`, and which (if any) best-effort
step inside the `try` block would throw if executed. -/
structure StopEnv where
  child : Option Nat
  stopHandled : Bool
  configLoaded : Bool
  telemetryGlobal : Bool
  dirsGlobalKnown : Bool
  traceUploadUrl : Option String
  throwAt : Option TryStep
deriving DecidableEq

/-- Effects of the initial `child.kill` in `handleSessionStop` (performed
only when a worker handle exists). -/
def killFx (e : StopEnv) (signal : Option String) : List Effect :=
  match e.child with
  | some pid => [Effect.kill pid (killArgOf signal)]
  | none => []

/-- Whether the `try` block of `handleSessionStop` actually throws: the
designated failing step must be one that executes (the config load is
skipped when `config` is already set, the `Telemetry` constructor when
the telemetry global exists, `findPagesDir` when both directory globals
are known; the `record` call always executes when reached). -/
def tryThrows (e : StopEnv) : Bool :=
  match e.throwAt with
  | some TryStep.loadConfigStep => !e.configLoaded
  | some TryStep.telemetryCtor => !e.telemetryGlobal
  | some TryStep.pagesDirDetect => !e.dirsGlobalKnown
  | some TryStep.recordStep => true
  | none => false

/-- Whether the module-level `config` variable is set after the `try`
block: it was set before, or the `config = config || (await loadConfig)`
statement ran without throwing. -/
def configAfterTry (e : StopEnv) : Bool :=
  e.configLoaded || !(e.throwAt == some TryStep.loadConfigStep)

/-- Outcome of one sequential run of `handleSessionStop`: the effects it
performed, and whether an exception escaped the async function (which
happens exactly when `config` is still unset at the `uploadTrace` call,
whose argument dereferences `config.distDir` outside the `try`). -/
structure StopRun where
  effects : List Effect
  crashed : Bool
deriving DecidableEq

/-- Sequential embedding of `handleSessionStop` (lines 38-102 of
`next-dev.ts`): kill the worker if present, return if the session stop
was already handled, set the flag, run the best-effort `try` block
(telemetry record and detached flush unless a step throws — the `catch`
swallows the error and prints nothing), then if `traceUploadUrl` is
truthy dispatch the trace upload (reading `config.distDir`, which throws
when `config` is unset), restore the cursor, write a newline and exit
with status 0. -/
def handleSessionStopRun (signal : Option String) (e : StopEnv) : StopRun :=
  let kfx := killFx e signal
  if e.stopHandled then { effects := kfx, crashed := false }
  else
    let tfx := if tryThrows e then [] else [Effect.telemetryRecord, Effect.flushDetached]
    if truthyStr e.traceUploadUrl then
      if configAfterTry e then
        { effects := kfx ++ tfx ++
            [Effect.uploadTrace, Effect.writeStdout showCursor,
             Effect.writeStdout "\n", Effect.exitProcess 0],
          crashed := false }
      else
        { effects := kfx ++ tfx, crashed := true }
    else
      { effects := kfx ++ tfx ++
          [Effect.writeStdout showCursor, Effect.writeStdout "\n",
           Effect.exitProcess 0],
        crashed := false }

/-- Retry permission (line 180-181):
`args['--port'] === undefined && process.env.PORT === undefined`. -/
def allowRetry (portFlag : Option Nat) (envPORT : Option String) : Bool :=
  portFlag.isNone && envPORT.isNone

/-- Per-generation closure state of one `startServer` call: the `options`
argument captured by its message handler and its handler-local `resolved`
flag.  The generation's pending promise is identified with the worker pid
of that generation. -/
structure Gen where
  options : StartServerOptions
  resolved : Bool
deriving DecidableEq

/-- Module-level supervisor state: the current worker handle (the
module-level `child` variable), a fresh-pid counter, the
`sessionStopHandled` flag, and the handlers still registered on spawned
worker channels (old generations keep their handlers after a restart). -/
structure SupState where
  child : Option Nat
  nextId : Nat
  stopHandled : Bool
  gens : List (Nat × Gen)
deriving DecidableEq

/-- State before any worker has been spawned. -/
def initSup : SupState :=
  { child := none, nextId := 0, stopHandled := false, gens := [] }

/-- A message arriving on a worker channel, reduced to what the handler
inspects: either not an object (ignored by the `typeof` guard) or an
object with the truthiness of its `nextWorkerReady` and
`nextServerReady` fields. -/
inductive ChildMsg
| obj (workerReadyField serverReadyField : Bool)
| nonObj
deriving DecidableEq

/-- A `ready` message as the handler classifies it:
an object whose `nextWorkerReady` field is truthy. -/
def isReadyMsg (m : ChildMsg) : Bool :=
  match m with
  | ChildMsg.obj true _ => true
  | _ => false

/-- A `serverReady` message as the handler classifies it: an object whose
`nextWorkerReady` field is falsy and whose `nextServerReady` field is
truthy. -/
def isSrvMsg (m : ChildMsg) : Bool :=
  match m with
  | ChildMsg.obj false true => true
  | _ => false

/-- JavaScript truthiness of the `signal` argument of the exit handler ( a
`string | null`; `null` and the empty string are falsy). -/
def truthySig (signal : Option String) : Bool := truthyStr signal

/-- Spawn of one worker generation (the body of `startServer` before the
handlers fire, lines 249-260): fork a worker, overwrite the module-level
`child` handle with the new one, and register the generation's handlers
(closing over `options`, with a fresh `resolved := false`). -/
def startServerStep (opts : StartServerOptions) (s : SupState) : SupState × List Effect :=
  let pid := s.nextId
  ({ child := some pid, nextId := pid + 1, stopHandled := s.stopHandled,
     gens := (pid, { options := opts, resolved := false }) :: s.gens },
   [Effect.spawn pid opts])

/-- Mark generation `pid`'s closure-local `resolved` flag. -/
def setResolved (pid : Nat) (gens : List (Nat × Gen)) : List (Nat × Gen) :=
  gens.map (fun p => if p.1 = pid then (p.1, { p.2 with resolved := true }) else p)

/-- The message handler registered by the `startServer` call for
generation `pid` (lines 261-270): on a truthy `nextWorkerReady` it sends
`{ nextWorkerOptions: options }` through the *current module-level*
`child` handle (`child?.send`); on a truthy `nextServerReady` (when
`nextWorkerReady` is falsy) it resolves the generation's promise, at most
once, guarded by the closure-local `resolved` flag; anything else is
ignored. -/
def onMessage (pid : Nat) (msg : ChildMsg) (s : SupState) : SupState × List Effect :=
  match s.gens.lookup pid with
  | none => (s, [])
  | some g =>
    match msg with
    | ChildMsg.nonObj => (s, [])
    | ChildMsg.obj wr sr =>
      if wr then
        match s.child with
        | some c => (s, [Effect.send c (WorkerMsgOut.deliverOptions g.options)])
        | none => (s, [])
      else if sr && !g.resolved then
        ({ s with gens := setResolved pid s.gens }, [Effect.resolve pid])
      else (s, [])

/-- The exit handler registered by the `startServer` call for generation
`pid` (lines 272-280): if the session stop was already handled or the
worker died from a signal, do nothing; else if the exit code equals the
distinguished restart code, call `startServer` again with the very same
captured `options`; otherwise call `handleSessionStop(signal)` (with the
`signal` value, falsy at this point). -/
def onExit (restartCode : Int) (pid : Nat) (code : Option Int)
    (signal : Option String) (s : SupState) : SupState × List Effect :=
  match s.gens.lookup pid with
  | none => (s, [])
  | some g =>
    if s.stopHandled || truthySig signal then (s, [])
    else if code = some restartCode then startServerStep g.options s
    else (s, [Effect.invokeShutdown signal])

/-- Deliver a list of messages on generation `pid`'s channel, in order,
accumulating the supervisor's effects. -/
def processMsgs (pid : Nat) (ms : List ChildMsg) (s : SupState) : SupState × List Effect :=
  match ms with
  | [] => (s, [])
  | m :: rest =>
    let step1 := onMessage pid m s
    let step2 := processMsgs pid rest step1.1
    (step2.1, step1.2 ++ step2.2)

/-- HTTPS-related CLI arguments consumed by `runDevServer`: the
truthiness of `--experimental-https`, and the raw values of
`--experimental-https-key` and `--experimental-https-cert`. -/
structure HttpsCliArgs where
  https : Bool
  httpsKey : Option String
  httpsCert : Option String
deriving DecidableEq

/-- Whether a path string is absolute (starts with the path separator). -/
def isAbsolutePath (s : String) : Bool :=
  match s.data with
  | [] => false
  | c :: _ => c == '/'

/-- Modelled from the spec: `path.resolve` is an external collaborator;
the spec only requires that explicit key and cert paths are "resolved to
absolute paths" — an absolute path is kept, a relative one is anchored at
the process working directory. -/
def pathResolve (cwd p : String) : String :=
  if isAbsolutePath p then p else cwd ++ "/" ++ p

/-- The experimental-certificate warning logged by `runDevServer`. -/
def selfSignedWarning : String :=
  "Self-signed certificates are currently an experimental feature, use at your own risk."

/-- Embedding of `runDevServer` (lines 284-318) up to the first spawn: when
`--experimental-https` is truthy, log the warning, then either take the
two explicit paths (when both are truthy) resolved to absolute paths, or
generate a self-signed certificate bound to the resolved hostname;
attach the certificate to the options and call `startServer` once.
Without HTTPS the base options are spawned unchanged. -/
def runDevServerStep (cwd : String) (a : HttpsCliArgs) (host : Option String)
    (base : StartServerOptions) (s : SupState) : SupState × List Effect :=
  if a.https then
    let explicitPaths := truthyStr a.httpsKey && truthyStr a.httpsCert
    let cert : Certificate :=
      if explicitPaths then
        Certificate.explicit (pathResolve cwd (a.httpsKey.getD ""))
          (pathResolve cwd (a.httpsCert.getD ""))
      else Certificate.selfSigned host
    let genFx : List Effect := if explicitPaths then [] else [Effect.generateCert host]
    let spawned := startServerStep { base with selfSignedCertificate := some cert } s
    (spawned.1, Effect.logWarn selfSignedWarning :: genFx ++ spawned.2)
  else startServerStep base s

/-- CLI arguments of `nextDev` relevant to the supervision core. -/
structure DevArgs where
  help : Bool
  portFlag : Option Nat
  hostname : Option String
  testProxy : Bool
  uploadTraceUrl : Option String
  httpsArgs : HttpsCliArgs
deriving DecidableEq

/-- The `No such directory` fatal message of `nextDev` (the directory
path is interpolated; we keep the fixed part). -/
def noSuchDirMsg (dir : String) : String :=
  "> No such directory exists as the project root: " ++ dir

/-- Embedding of the `nextDev` command body (lines 107-322) at the
granularity the claims need: the `--help` early exit, the
project-directory existence check, the reserved-port check
(`isPortIsReserved` and `getReservedPortExplanation` are external
helpers, passed in as `reserved` and `reservedMsg`), the assembly of
`devServerOptions` (with `allowRetry` computed from the `--port` flag and
the `PORT` environment variable), and the hand-off to `runDevServer`,
which performs the first worker spawn.  `resolvedPort` is the value of
the external `getPort(args)`. -/
def nextDevRun (a : DevArgs) (dirExists : Bool) (resolvedPort : Nat)
    (reserved : Nat → Bool) (reservedMsg : Nat → String) (envPORT : Option String)
    (cwd dir : String) (envInfo expFeatureInfo : List String) : List Effect :=
  if a.help then [Effect.printHelp, Effect.exitProcess 0]
  else if !dirExists then [Effect.printAndExit (noSuchDirMsg dir) 1]
  else if reserved resolvedPort then [Effect.printAndExit (reservedMsg resolvedPort) 1]
  else
    let opts : StartServerOptions :=
      { dir := dir, port := resolvedPort,
        allowRetry := allowRetry a.portFlag envPORT,
        isDev := true, hostname := a.hostname,
        isExperimentalTestProxy := a.testProxy,
        envInfo := envInfo, expFeatureInfo := expFeatureInfo }
    (runDevServerStep cwd a.httpsArgs a.hostname opts initSup).2

/-- Atomic segments of one invocation of `handleSessionStop`, as
delimited by its only suspension point: `first` is the synchronous prefix
(kill the worker if a handle exists, then check — and, if false, set —
`sessionStopHandled`, with no `await` in between, lines 38-43); `rest` is
the continuation after the flag is set (the best-effort `try` block, the
optional trace upload, the cursor restore and the process exit, lines
45-101, which contain the one `await`). -/
inductive CStep
| first
| rest
deriving DecidableEq

/-- One logical invocation of `handleSessionStop` in flight: the signal
it was triggered with and the segments it has not yet executed. -/
structure CThread where
  signal : Option String
  todo : List CStep
deriving DecidableEq

/-- The shared module-level state the coordinator's synchronous prefix
reads and writes: the worker handle and the `sessionStopHandled` flag. -/
structure CState where
  child : Option Nat
  stopHandled : Bool
deriving DecidableEq

/-- The side-effect sequence of the coordinator's continuation on the
happy path: telemetry record, detached flush, the trace upload when a
target URL is configured, cursor restore, newline, exit 0. -/
def seqFx (upload : Bool) : List Effect :=
  [Effect.telemetryRecord, Effect.flushDetached]
    ++ (if upload then [Effect.uploadTrace] else [])
    ++ [Effect.writeStdout showCursor, Effect.writeStdout "\n", Effect.exitProcess 0]

/-- Effects of the initial `child.kill` of one invocation, from the
shared state at the moment its synchronous prefix runs. -/
def killFxOf (s : CState) (signal : Option String) : List Effect :=
  match s.child with
  | some pid => [Effect.kill pid (killArgOf signal)]
  | none => []

/-- Run one atomic segment of an invocation.  The `first` segment kills
the worker if a handle exists and then performs the check-then-set on
`sessionStopHandled`; if the flag was already set the invocation returns
(its remaining segments are dropped), otherwise the flag is set in the
same atomic segment (before any suspending call) and the invocation
proceeds.  The `rest` segment emits the side-effect sequence. -/
def cstep (upload : Bool) (s : CState) (t : CThread) : CState × CThread × List Effect :=
  match t.todo with
  | [] => (s, t, [])
  | CStep.first :: k =>
    let kfx := killFxOf s t.signal
    if s.stopHandled then (s, { t with todo := [] }, kfx)
    else ({ s with stopHandled := true }, { t with todo := k }, kfx)
  | CStep.rest :: k => (s, { t with todo := k }, seqFx upload)

/-- Replace invocation `i`'s in-flight state in a two-thread store. -/
def updStore (th : Bool → CThread) (i : Bool) (t : CThread) : Bool → CThread :=
  fun j => if j = i then t else th j

/-- Run two concurrent invocations of `handleSessionStop` under an
arbitrary schedule: each schedule entry names the invocation whose next
atomic segment runs (scheduling a finished invocation is a no-op).  The
trace tags each effect with the invocation that performed it. -/
def runC (upload : Bool) : List Bool → CState → (Bool → CThread) →
    CState × (Bool → CThread) × List (Bool × Effect)
  | [], s, th => (s, th, [])
  | b :: bs, s, th =>
    let one := cstep upload s (th b)
    let out := runC upload bs one.1 (updStore th b one.2.1)
    (out.1, out.2.1, one.2.2.map (fun e => (b, e)) ++ out.2.2)

/-- Effects that are worker kills. -/
def isKillE (e : Effect) : Bool :=
  match e with
  | Effect.kill _ _ => true
  | _ => false

/-- Effects that are `child.send` calls. -/
def isSendE (e : Effect) : Bool :=
  match e with
  | Effect.send _ _ => true
  | _ => false

/-- Effects that resolve a pending `startServer` promise. -/
def isResolveE (e : Effect) : Bool :=
  match e with
  | Effect.resolve _ => true
  | _ => false

/-- Effects that spawn a worker. -/
def isSpawnE (e : Effect) : Bool :=
  match e with
  | Effect.spawn _ _ => true
  | _ => false

/-- Effects that generate a self-signed certificate. -/
def isGenCertE (e : Effect) : Bool :=
  match e with
  | Effect.generateCert _ => true
  | _ => false

/-- Effects that print user-visible noise (warnings, errors, fatal
messages, help text). -/
def isNoiseE (e : Effect) : Bool :=
  match e with
  | Effect.logWarn _ => true
  | Effect.consoleError => true
  | Effect.printAndExit _ _ => true
  | Effect.printHelp => true
  | _ => false

/-- Effects that terminate the process. -/
def isExitE (e : Effect) : Bool :=
  match e with
  | Effect.exitProcess _ => true
  | _ => false

lemma stop_run_not_handled (signal : Option String) (e : StopEnv)
    (h1 : e.stopHandled = false)
    (h2 : truthyStr e.traceUploadUrl = true → e.configLoaded = true) :
    handleSessionStopRun signal e =
      { effects := killFx e signal ++
          ((if tryThrows e then [] else [Effect.telemetryRecord, Effect.flushDetached]) ++
            ((if truthyStr e.traceUploadUrl then [Effect.uploadTrace] else []) ++
              [Effect.writeStdout showCursor, Effect.writeStdout "\n", Effect.exitProcess 0])),
        crashed := false } := by
  cases hu : truthyStr e.traceUploadUrl with
  | true =>
    have hconf : configAfterTry e = true := by
      unfold configAfterTry
      rw [h2 hu]
      rfl
    simp [handleSessionStopRun, h1, hu, hconf]
  | false =>
    simp [handleSessionStopRun, h1, hu]

lemma stop_run_head (signal : Option String) (e : StopEnv) (pid : Nat)
    (hc : e.child = some pid) :
    (handleSessionStopRun signal e).effects.head? =
      some (Effect.kill pid (killArgOf signal)) := by
  have hk : killFx e signal = [Effect.kill pid (killArgOf signal)] := by
    simp [killFx, hc]
  unfold handleSessionStopRun
  simp only [hk]
  split
  · rfl
  · split
    · split <;> rfl
    · rfl

/-- C6: the retry-allowed flag handed to the worker is `true` exactly when
neither the `--port` flag nor the `PORT` environment variable is present,
and `false` whenever either is present — for all four combinations. -/
theorem allowRetry_iff (p : Option Nat) (ev : Option String) :
    allowRetry p ev = true ↔ (p = none ∧ ev = none) := by
  cases p <;> cases ev <;> simp [allowRetry]

/-- C10: whenever a worker handle exists, `handleSessionStop` first calls
`child.kill` forwarding the signal name when the signal argument is a
(non-empty) signal name, and passing the number `0` — not a default
termination signal — when the signal argument is null. -/
theorem kill_signal_forwarding (signal : Option String) (e : StopEnv) (pid : Nat)
    (hc : e.child = some pid) :
    (signal = none →
      (handleSessionStopRun signal e).effects.head? =
        some (Effect.kill pid (KillArg.num 0)))
    ∧ (∀ s, signal = some s → s ≠ "" →
      (handleSessionStopRun signal e).effects.head? =
        some (Effect.kill pid (KillArg.sig s))) := by
  constructor
  · intro h
    subst h
    exact stop_run_head none e pid hc
  · intro s h hs
    subst h
    have := stop_run_head (some s) e pid hc
    rwa [show killArgOf (some s) = KillArg.sig s by simp [killArgOf, hs]] at this

theorem kill_signal_forwarding_witness :
    ((none : Option String) = none ∧
      (handleSessionStopRun none
        { child := some 7, stopHandled := true, configLoaded := false,
          telemetryGlobal := false, dirsGlobalKnown := false,
          traceUploadUrl := none, throwAt := none }).effects.head? =
        some (Effect.kill 7 (KillArg.num 0)))
    ∧ (handleSessionStopRun (some "SIGTERM")
        { child := some 7, stopHandled := false, configLoaded := true,
          telemetryGlobal := false, dirsGlobalKnown := false,
          traceUploadUrl := none, throwAt := none }).effects.head? =
        some (Effect.kill 7 (KillArg.sig "SIGTERM")) :=
  ⟨⟨rfl, (kill_signal_forwarding none
      { child := some 7, stopHandled := true, configLoaded := false,
        telemetryGlobal := false, dirsGlobalKnown := false,
        traceUploadUrl := none, throwAt := none } 7 rfl).1 rfl⟩,
    (kill_signal_forwarding (some "SIGTERM")
      { child := some 7, stopHandled := false, configLoaded := true,
        telemetryGlobal := false, dirsGlobalKnown := false,
        traceUploadUrl := none, throwAt := none } 7 rfl).2 "SIGTERM" rfl
      (by decide)⟩

/-- A first-invocation environment in which the telemetry constructor
throws while a trace-upload target is configured (and, as in every real
session with an upload target, the config is already loaded). -/
def sampleStopEnv : StopEnv :=
  { child := some 3, stopHandled := false, configLoaded := true,
    telemetryGlobal := false, dirsGlobalKnown := true,
    traceUploadUrl := some "https://trace.example", throwAt := some TryStep.telemetryCtor }

/-- C4: on a first invocation of the Shutdown Coordinator, any error
thrown during config loading, telemetry construction, routing-directory
detection or telemetry recording is swallowed — nothing is printed — and
the coordinator still reaches `process.exit(0)`, including when a
trace-upload target URL is configured.  The hypothesis `h2` is the
program invariant that `traceUploadUrl` is only ever assigned (line 217)
after the config load of line 190 has completed, so an upload target
implies a loaded config. -/
theorem shutdown_swallows_errors (signal : Option String) (e : StopEnv)
    (h1 : e.stopHandled = false)
    (h2 : truthyStr e.traceUploadUrl = true → e.configLoaded = true) :
    (handleSessionStopRun signal e).crashed = false
    ∧ (handleSessionStopRun signal e).effects.all (fun x => !isNoiseE x) = true
    ∧ (handleSessionStopRun signal e).effects.getLast? = some (Effect.exitProcess 0) := by
  rw [stop_run_not_handled signal e h1 h2]
  refine ⟨rfl, ?_, ?_⟩ <;>
    cases hc : e.child <;>
      cases h3 : tryThrows e <;>
        cases h4 : truthyStr e.traceUploadUrl <;>
          simp [killFx, hc, h3, h4, isNoiseE]

theorem shutdown_swallows_errors_witness :
    sampleStopEnv.stopHandled = false
    ∧ truthyStr sampleStopEnv.traceUploadUrl = true
    ∧ sampleStopEnv.configLoaded = true
    ∧ (handleSessionStopRun (some "SIGINT") sampleStopEnv).crashed = false
    ∧ (handleSessionStopRun (some "SIGINT") sampleStopEnv).effects.all
        (fun x => !isNoiseE x) = true
    ∧ (handleSessionStopRun (some "SIGINT") sampleStopEnv).effects.getLast? =
        some (Effect.exitProcess 0) := by
  refine ⟨rfl, by decide, rfl, ?_⟩
  exact shutdown_swallows_errors (some "SIGINT") sampleStopEnv rfl (fun _ => rfl)

/-- C9: on a first invocation, the coordinator writes the show-cursor
escape sequence and a trailing newline to standard output immediately
before `process.exit(0)`: the effect trace ends with exactly these three
effects, and no process exit occurs earlier.  `h2` is the same program
invariant as in the error-swallowing theorem. -/
theorem cursor_restored_before_exit (signal : Option String) (e : StopEnv)
    (h1 : e.stopHandled = false)
    (h2 : truthyStr e.traceUploadUrl = true → e.configLoaded = true) :
    ∃ pre, (handleSessionStopRun signal e).effects =
        pre ++ [Effect.writeStdout showCursor, Effect.writeStdout "\n", Effect.exitProcess 0]
      ∧ pre.all (fun x => !isExitE x) = true := by
  rw [stop_run_not_handled signal e h1 h2]
  refine ⟨killFx e signal ++
    ((if tryThrows e then [] else [Effect.telemetryRecord, Effect.flushDetached]) ++
      (if truthyStr e.traceUploadUrl then [Effect.uploadTrace] else [])), ?_, ?_⟩
  · simp [List.append_assoc]
  · cases hc : e.child <;>
      cases h3 : tryThrows e <;>
        cases h4 : truthyStr e.traceUploadUrl <;>
          simp [killFx, hc, h3, h4, isExitE]

theorem cursor_restored_before_exit_witness :
    sampleStopEnv.stopHandled = false
    ∧ ∃ pre, (handleSessionStopRun none sampleStopEnv).effects =
        pre ++ [Effect.writeStdout showCursor, Effect.writeStdout "\n", Effect.exitProcess 0]
      ∧ pre.all (fun x => !isExitE x) = true :=
  ⟨rfl, cursor_restored_before_exit none sampleStopEnv rfl (fun _ => rfl)⟩

/-- C7: an invocation that reaches port resolution (help was not
requested, the project directory exists) and whose resolved port is on
the reserved-port list prints the reserved-port explanation and exits
with status 1, with no worker spawned — regardless of all other flags
and inputs. -/
theorem reserved_port_exits (a : DevArgs) (dirExists : Bool) (resolvedPort : Nat)
    (reserved : Nat → Bool) (reservedMsg : Nat → String) (envPORT : Option String)
    (cwd dir : String) (envInfo expFeatureInfo : List String)
    (hh : a.help = false) (hd : dirExists = true) (hr : reserved resolvedPort = true) :
    nextDevRun a dirExists resolvedPort reserved reservedMsg envPORT cwd dir envInfo expFeatureInfo
      = [Effect.printAndExit (reservedMsg resolvedPort) 1]
    ∧ ∀ p o, Effect.spawn p o ∉
        nextDevRun a dirExists resolvedPort reserved reservedMsg envPORT cwd dir
          envInfo expFeatureInfo := by
  have he : nextDevRun a dirExists resolvedPort reserved reservedMsg envPORT cwd dir
      envInfo expFeatureInfo = [Effect.printAndExit (reservedMsg resolvedPort) 1] := by
    simp [nextDevRun, hh, hd, hr]
  refine ⟨he, ?_⟩
  intro p o
  rw [he]
  simp

/-- A concrete options value used by witnesses and counterexamples. -/
def sampleOpts : StartServerOptions :=
  { dir := "/proj", port := 3000, allowRetry := true, isDev := true,
    hostname := none, isExperimentalTestProxy := false,
    envInfo := [], expFeatureInfo := [], selfSignedCertificate := none }

/-- CLI arguments used by the concrete witnesses: no flags set. -/
def plainArgs : DevArgs :=
  { help := false, portFlag := none, hostname := none, testProxy := false,
    uploadTraceUrl := none,
    httpsArgs := { https := false, httpsKey := none, httpsCert := none } }

theorem reserved_port_exits_witness :
    plainArgs.help = false
    ∧ (fun p => p == 79) 79 = true
    ∧ nextDevRun plainArgs true 79 (fun p => p == 79) (fun _ => "reserved") none
        "/cwd" "/proj" [] [] = [Effect.printAndExit "reserved" 1]
    ∧ Effect.spawn 0 sampleOpts ∉
        nextDevRun plainArgs true 79 (fun p => p == 79) (fun _ => "reserved") none
          "/cwd" "/proj" [] [] := by
  refine ⟨rfl, by decide, ?_, ?_⟩
  · exact (reserved_port_exits plainArgs true 79 (fun p => p == 79) (fun _ => "reserved")
      none "/cwd" "/proj" [] [] rfl rfl (by decide)).1
  · exact (reserved_port_exits plainArgs true 79 (fun p => p == 79) (fun _ => "reserved")
      none "/cwd" "/proj" [] [] rfl rfl (by decide)).2 0 sampleOpts

/-- C2: the exit handler of a registered worker generation applies its
rules in order: if the shutdown-handled flag is set or the worker died
from a signal, it does nothing; else if the exit code equals the
distinguished restart code it performs exactly one new spawn through the
same startup routine with the very options captured at spawn time
(deep-equal because it is the same value); otherwise it invokes the
Shutdown Coordinator with the absent signal. -/
theorem exit_handler_rules (rc : Int) (pid : Nat) (code : Option Int)
    (signal : Option String) (s : SupState) (g : Gen)
    (hreg : s.gens.lookup pid = some g) :
    ((s.stopHandled = true ∨ truthySig signal = true) →
        onExit rc pid code signal s = (s, []))
    ∧ (s.stopHandled = false → signal = none → code = some rc →
        onExit rc pid code signal s = startServerStep g.options s
        ∧ (onExit rc pid code signal s).2 = [Effect.spawn s.nextId g.options])
    ∧ (s.stopHandled = false → signal = none → code ≠ some rc →
        onExit rc pid code signal s = (s, [Effect.invokeShutdown none])) := by
  refine ⟨?_, ?_, ?_⟩
  · rintro (h | h) <;> simp [onExit, hreg, h]
  · intro h1 h2 h3
    subst h2
    constructor <;> simp [onExit, hreg, h1, h3, truthySig, truthyStr, startServerStep]
  · intro h1 h2 h3
    subst h2
    simp [onExit, hreg, h1, h3, truthySig, truthyStr]

/-- The supervisor state right after the first spawn of `sampleOpts`. -/
def sampleSpawned : SupState := (startServerStep sampleOpts initSup).1

theorem exit_handler_rules_witness :
    sampleSpawned.gens.lookup 0 = some { options := sampleOpts, resolved := false }
    ∧ onExit 77 0 (some 3) (some "SIGKILL") { sampleSpawned with stopHandled := true }
        = ({ sampleSpawned with stopHandled := true }, [])
    ∧ onExit 77 0 (some 77) none sampleSpawned = startServerStep sampleOpts sampleSpawned
    ∧ (onExit 77 0 (some 77) none sampleSpawned).2 = [Effect.spawn 1 sampleOpts]
    ∧ onExit 77 0 (some 1) none sampleSpawned = (sampleSpawned, [Effect.invokeShutdown none]) := by
  have hreg : sampleSpawned.gens.lookup 0 = some { options := sampleOpts, resolved := false } :=
    rfl
  have hreg2 : ({ sampleSpawned with stopHandled := true } : SupState).gens.lookup 0 =
      some { options := sampleOpts, resolved := false } := rfl
  refine ⟨hreg, ?_, ?_, ?_, ?_⟩
  · exact (exit_handler_rules 77 0 (some 3) (some "SIGKILL")
      { sampleSpawned with stopHandled := true } _ hreg2).1 (Or.inl rfl)
  · exact ((exit_handler_rules 77 0 (some 77) none sampleSpawned _ hreg).2.1 rfl rfl rfl).1
  · exact ((exit_handler_rules 77 0 (some 77) none sampleSpawned _ hreg).2.1 rfl rfl rfl).2
  · exact (exit_handler_rules 77 0 (some 1) none sampleSpawned _ hreg).2.2 rfl rfl (by decide)

/-- The supervisor state of a single fresh generation (worker pid 0) whose
closure-local `resolved` flag is `r`: exactly the state reached by the
first `startServer` call, as the generation's flag evolves. -/
def genState (opts : StartServerOptions) (r : Bool) : SupState :=
  { child := some 0, nextId := 1, stopHandled := false,
    gens := [(0, { options := opts, resolved := r })] }

lemma startServer_fresh (opts : StartServerOptions) :
    startServerStep opts initSup = (genState opts false, [Effect.spawn 0 opts]) := rfl

lemma onMessage_ready (opts : StartServerOptions) (r : Bool) (m : ChildMsg)
    (hm : isReadyMsg m = true) :
    onMessage 0 m (genState opts r) =
      (genState opts r, [Effect.send 0 (WorkerMsgOut.deliverOptions opts)]) := by
  cases m with
  | nonObj => simp [isReadyMsg] at hm
  | obj wr sr =>
    cases wr with
    | false => simp [isReadyMsg] at hm
    | true => rfl

lemma onMessage_srv_new (opts : StartServerOptions) :
    onMessage 0 (ChildMsg.obj false true) (genState opts false) =
      (genState opts true, [Effect.resolve 0]) := rfl

lemma onMessage_srv_old (opts : StartServerOptions) :
    onMessage 0 (ChildMsg.obj false true) (genState opts true) =
      (genState opts true, []) := rfl

lemma onMessage_other (opts : StartServerOptions) (r : Bool) (m : ChildMsg)
    (h1 : isReadyMsg m = false) (h2 : isSrvMsg m = false) :
    onMessage 0 m (genState opts r) = (genState opts r, []) := by
  cases m with
  | nonObj => rfl
  | obj wr sr =>
    cases wr with
    | true => simp [isReadyMsg] at h1
    | false =>
      cases sr with
      | true => simp [isSrvMsg] at h2
      | false => rfl

lemma processMsgs_state (opts : StartServerOptions) :
    ∀ (ms : List ChildMsg) (r : Bool),
    (processMsgs 0 ms (genState opts r)).1 = genState opts (r || ms.any isSrvMsg) := by
  intro ms
  induction ms with
  | nil => intro r; simp [processMsgs]
  | cons m rest ih =>
    intro r
    cases m with
    | nonObj =>
      simp only [processMsgs, onMessage_other opts r ChildMsg.nonObj rfl rfl]
      simp [ih r, isSrvMsg]
    | obj wr sr =>
      cases wr with
      | true =>
        simp only [processMsgs, onMessage_ready opts r (ChildMsg.obj true sr) rfl]
        simp [ih r, isSrvMsg]
      | false =>
        cases sr with
        | false =>
          simp only [processMsgs, onMessage_other opts r (ChildMsg.obj false false) rfl rfl]
          simp [ih r, isSrvMsg]
        | true =>
          cases r with
          | false =>
            simp only [processMsgs, onMessage_srv_new opts]
            simp [ih true, isSrvMsg]
          | true =>
            simp only [processMsgs, onMessage_srv_old opts]
            simp [ih true, isSrvMsg]

lemma processMsgs_sends (opts : StartServerOptions) :
    ∀ (ms : List ChildMsg) (r : Bool),
    ((processMsgs 0 ms (genState opts r)).2).filter isSendE
      = (ms.filter isReadyMsg).map
          (fun _ => Effect.send 0 (WorkerMsgOut.deliverOptions opts)) := by
  intro ms
  induction ms with
  | nil => intro r; simp [processMsgs]
  | cons m rest ih =>
    intro r
    cases m with
    | nonObj =>
      simp only [processMsgs, onMessage_other opts r ChildMsg.nonObj rfl rfl]
      simp [ih r, isReadyMsg]
    | obj wr sr =>
      cases wr with
      | true =>
        simp only [processMsgs, onMessage_ready opts r (ChildMsg.obj true sr) rfl]
        simp [ih r, isReadyMsg, isSendE]
      | false =>
        cases sr with
        | false =>
          simp only [processMsgs, onMessage_other opts r (ChildMsg.obj false false) rfl rfl]
          simp [ih r, isReadyMsg]
        | true =>
          cases r with
          | false =>
            simp only [processMsgs, onMessage_srv_new opts]
            simp [ih true, isReadyMsg, isSendE, isResolveE]
          | true =>
            simp only [processMsgs, onMessage_srv_old opts]
            simp [ih true, isReadyMsg]

lemma processMsgs_resolves (opts : StartServerOptions) :
    ∀ (ms : List ChildMsg) (r : Bool),
    ((processMsgs 0 ms (genState opts r)).2).filter isResolveE
      = (if !r && ms.any isSrvMsg then [Effect.resolve 0] else []) := by
  intro ms
  induction ms with
  | nil => intro r; simp [processMsgs]
  | cons m rest ih =>
    intro r
    cases m with
    | nonObj =>
      simp only [processMsgs, onMessage_other opts r ChildMsg.nonObj rfl rfl]
      simp [ih r, isSrvMsg]
    | obj wr sr =>
      cases wr with
      | true =>
        simp only [processMsgs, onMessage_ready opts r (ChildMsg.obj true sr) rfl]
        simp [ih r, isSrvMsg, isResolveE]
      | false =>
        cases sr with
        | false =>
          simp only [processMsgs, onMessage_other opts r (ChildMsg.obj false false) rfl rfl]
          simp [ih r, isSrvMsg]
        | true =>
          cases r with
          | false =>
            simp only [processMsgs, onMessage_srv_new opts]
            simp [ih true, isSrvMsg, isResolveE]
          | true =>
            simp only [processMsgs, onMessage_srv_old opts]
            simp [ih true, isSrvMsg]

/-- C3: on the channel of a fresh generation, for any message sequence
containing a `serverReady` preceded by no earlier `serverReady` (with
arbitrary other messages, duplicate `serverReady`s afterwards, and
unrecognized messages interleaved), the supervisor emits one
`deliverOptions` send per `ready` message (and no send for anything
else), the promise is resolved exactly once — at the first `serverReady`
(no resolve while processing the prefix) — and messages matching no
expected shape produce no effect and no state change (no error is
raised: the handler is total). -/
theorem handshake_resolves_once (opts : StartServerOptions) (pre post : List ChildMsg)
    (hpre : pre.any isSrvMsg = false) :
    (((processMsgs 0 (pre ++ ChildMsg.obj false true :: post)
          (startServerStep opts initSup).1).2).filter isResolveE
        = [Effect.resolve 0])
    ∧ (((processMsgs 0 (pre ++ ChildMsg.obj false true :: post)
          (startServerStep opts initSup).1).2).filter isSendE
        = (((pre ++ ChildMsg.obj false true :: post).filter isReadyMsg).map
            (fun _ => Effect.send 0 (WorkerMsgOut.deliverOptions opts))))
    ∧ (((processMsgs 0 pre (startServerStep opts initSup).1).2).filter isResolveE = [])
    ∧ (∀ m r, isReadyMsg m = false → isSrvMsg m = false →
        onMessage 0 m (genState opts r) = (genState opts r, [])) := by
  have hfresh : (startServerStep opts initSup).1 = genState opts false := rfl
  rw [hfresh]
  refine ⟨?_, processMsgs_sends opts _ false, ?_,
    fun m r h1 h2 => onMessage_other opts r m h1 h2⟩
  · rw [processMsgs_resolves]
    simp [List.any_append, isSrvMsg]
  · rw [processMsgs_resolves]
    simp [hpre]

theorem handshake_resolves_once_witness :
    ([ChildMsg.obj false false, ChildMsg.obj true false].any isSrvMsg = false)
    ∧ (((processMsgs 0
          ([ChildMsg.obj false false, ChildMsg.obj true false] ++
            ChildMsg.obj false true :: [ChildMsg.obj false true, ChildMsg.nonObj])
          (startServerStep sampleOpts initSup).1).2).filter isResolveE
        = [Effect.resolve 0])
    ∧ (((processMsgs 0
          ([ChildMsg.obj false false, ChildMsg.obj true false] ++
            ChildMsg.obj false true :: [ChildMsg.obj false true, ChildMsg.nonObj])
          (startServerStep sampleOpts initSup).1).2).filter isSendE
        = [Effect.send 0 (WorkerMsgOut.deliverOptions sampleOpts)]) := by
  have h := handshake_resolves_once sampleOpts
    [ChildMsg.obj false false, ChildMsg.obj true false]
    [ChildMsg.obj false true, ChildMsg.nonObj] (by decide)
  exact ⟨by decide, h.1, by rw [h.2.1]; rfl⟩

/-- The supervisor state right after a restart of generation 0 (spawned
from the initial state, generation flag at `r0` when it exited with the
restart code): the new generation has pid 1, the module-level `child`
now points at it, and the old generation's handlers remain registered. -/
def postRestart (opts : StartServerOptions) (rc : Int) (r0 : Bool) : SupState :=
  (onExit rc 0 (some rc) none (genState opts r0)).1

/-- C5 counterexample: after a restart the supervisor tracks the new
handle (pid 1), and a late `ready` message delivered on the OLD
generation's channel (pid 0) does cause a `deliverOptions` send — the
old handler runs `child?.send`, which dereferences the module-level
`child` (now the new worker) with no generation identity check.  This
falsifies the claim that such a late message "causes no deliverOptions
send to any worker". -/
theorem late_ready_sends_counterexample :
    (onExit 77 0 (some 77) none (genState sampleOpts false)).1.child = some 1
    ∧ (onMessage 0 (ChildMsg.obj true false)
        (onExit 77 0 (some 77) none (genState sampleOpts false)).1).2
      = [Effect.send 1 (WorkerMsgOut.deliverOptions sampleOpts)] := by
  constructor <;> rfl

/-- C5 (amended): after a restart creates a new worker generation, a late
message from the old generation's channel never resolves the new
generation's promise (the `resolved` guard and the pending promise are
closure-local to each generation); however, a late `ready` message from
the old channel is not ignored: it causes exactly one `deliverOptions`
send, directed at the handle currently tracked by the supervisor (the
new worker), because the handler sends through the module-level `child`
and performs no generation identity check. -/
theorem late_message_cross_generation (opts : StartServerOptions) (rc : Int)
    (r0 : Bool) (m : ChildMsg) :
    (∀ e, e ∈ (onMessage 0 m (postRestart opts rc r0)).2 → e ≠ Effect.resolve 1)
    ∧ (isReadyMsg m = true →
        (onMessage 0 m (postRestart opts rc r0)).2
          = [Effect.send 1 (WorkerMsgOut.deliverOptions opts)]) := by
  have hpost : postRestart opts rc r0 =
      { child := some 1, nextId := 2, stopHandled := false,
        gens := [(1, { options := opts, resolved := false }),
                 (0, { options := opts, resolved := r0 })] } := by
    simp [postRestart, onExit, genState, List.lookup, truthySig, truthyStr, startServerStep]
  rw [hpost]
  constructor
  · intro e he
    cases m with
    | nonObj => simp [onMessage, List.lookup] at he
    | obj wr sr =>
      cases wr with
      | true =>
        simp [onMessage, List.lookup] at he
        simp [he]
      | false =>
        cases sr with
        | false => simp [onMessage, List.lookup] at he
        | true =>
          cases r0 with
          | false =>
            simp [onMessage, List.lookup] at he
            simp [he]
          | true => simp [onMessage, List.lookup] at he
  · intro hm
    cases m with
    | nonObj => simp [isReadyMsg] at hm
    | obj wr sr =>
      cases wr with
      | false => simp [isReadyMsg] at hm
      | true => simp [onMessage, List.lookup]

theorem late_message_cross_generation_witness :
    isReadyMsg (ChildMsg.obj true false) = true
    ∧ (onMessage 0 (ChildMsg.obj true false) (postRestart sampleOpts 77 true)).2
        = [Effect.send 1 (WorkerMsgOut.deliverOptions sampleOpts)]
    ∧ Effect.send 1 (WorkerMsgOut.deliverOptions sampleOpts) ≠ Effect.resolve 1 := by
  have h := late_message_cross_generation sampleOpts 77 true (ChildMsg.obj true false)
  refine ⟨rfl, h.2 rfl, h.1 _ ?_⟩
  rw [h.2 rfl]
  exact List.mem_singleton_self _

/-- C8: with HTTPS dev mode requested, if both an explicit key-file path
and an explicit cert-file path are supplied they are resolved to
absolute paths and used as-is (no certificate generation); otherwise a
self-signed certificate bound to the resolved hostname is generated
exactly once and attached to the options of the first spawn, and a
restart of that generation re-spawns with the identical options —
certificate included — generating nothing anew.  The last conjunct shows
`pathResolve` indeed yields absolute paths. -/
theorem https_certificate_provisioning (cwd : String) (a : HttpsCliArgs)
    (host : Option String) (base : StartServerOptions) (rc : Int)
    (hhttps : a.https = true) :
    (∀ k c, a.httpsKey = some k → a.httpsCert = some c → k ≠ "" → c ≠ "" →
      ((runDevServerStep cwd a host base initSup).2.filter isGenCertE = []
        ∧ (runDevServerStep cwd a host base initSup).2.filter isSpawnE
            = [Effect.spawn 0 { base with selfSignedCertificate := some (Certificate.explicit (pathResolve cwd k) (pathResolve cwd c)) }]))
    ∧ ((truthyStr a.httpsKey && truthyStr a.httpsCert) = false →
      ((runDevServerStep cwd a host base initSup).2.filter isGenCertE
          = [Effect.generateCert host]
        ∧ (runDevServerStep cwd a host base initSup).2.filter isSpawnE
            = [Effect.spawn 0
                { base with selfSignedCertificate := some (Certificate.selfSigned host) }]
        ∧ (onExit rc 0 (some rc) none (runDevServerStep cwd a host base initSup).1).2
            = [Effect.spawn 1
                { base with selfSignedCertificate := some (Certificate.selfSigned host) }]))
    ∧ (∀ p, isAbsolutePath cwd = true → isAbsolutePath (pathResolve cwd p) = true) := by
  refine ⟨?_, ?_, ?_⟩
  · intro k c hk hc hk2 hc2
    have htk : truthyStr (some k) = true := by simp [truthyStr, hk2]
    have htc : truthyStr (some c) = true := by simp [truthyStr, hc2]
    constructor <;>
      simp [runDevServerStep, hhttps, startServerStep, initSup, isGenCertE, isSpawnE,
        hk, hc, htk, htc]
  · intro ht
    refine ⟨?_, ?_, ?_⟩
    · simp [runDevServerStep, hhttps, ht, startServerStep, initSup, isGenCertE, isSpawnE]
    · simp [runDevServerStep, hhttps, ht, startServerStep, initSup, isGenCertE, isSpawnE]
    · have hstate : (runDevServerStep cwd a host base initSup).1 =
          genState { base with selfSignedCertificate := some (Certificate.selfSigned host) }
            false := by
        simp [runDevServerStep, hhttps, ht, startServerStep, initSup, genState]
      rw [hstate]
      simp [onExit, genState, List.lookup, truthySig, truthyStr, startServerStep]
  · intro p hcwd
    unfold pathResolve
    by_cases hp : isAbsolutePath p
    · simp [hp]
    · simp [hp]
      unfold isAbsolutePath at hcwd ⊢
      rw [String.data_append, String.data_append]
      rcases hd : cwd.data with _ | ⟨ch, t⟩
      · rw [hd] at hcwd
        simp at hcwd
      · rw [hd] at hcwd
        simpa using hcwd

/-- HTTPS arguments of a launch with `--experimental-https` and no
explicit key or cert. -/
def httpsNoPaths : HttpsCliArgs :=
  { https := true, httpsKey := none, httpsCert := none }

theorem https_certificate_provisioning_witness :
    httpsNoPaths.https = true
    ∧ (truthyStr httpsNoPaths.httpsKey && truthyStr httpsNoPaths.httpsCert) = false
    ∧ ((runDevServerStep "/cwd" httpsNoPaths (some "myhost") sampleOpts initSup).2.filter
          isGenCertE = [Effect.generateCert (some "myhost")]
        ∧ (runDevServerStep "/cwd" httpsNoPaths (some "myhost") sampleOpts initSup).2.filter
            isSpawnE
          = [Effect.spawn 0
              { sampleOpts with
                  selfSignedCertificate := some (Certificate.selfSigned (some "myhost")) }]
        ∧ (onExit 77 0 (some 77) none
            (runDevServerStep "/cwd" httpsNoPaths (some "myhost") sampleOpts initSup).1).2
          = [Effect.spawn 1
              { sampleOpts with
                  selfSignedCertificate := some (Certificate.selfSigned (some "myhost")) }])
    ∧ isAbsolutePath (pathResolve "/cwd" "rel/key.pem") = true := by
  refine ⟨rfl, rfl, ?_, ?_⟩
  · exact (https_certificate_provisioning "/cwd" httpsNoPaths (some "myhost") sampleOpts
      77 rfl).2.1 rfl
  · exact (https_certificate_provisioning "/cwd" httpsNoPaths (some "myhost") sampleOpts
      77 rfl).2.2 "rel/key.pem" (by decide)

lemma bool_not_ne (i : Bool) : (!i) ≠ i := by cases i <;> decide

lemma bool_ne_not (i : Bool) : i ≠ (!i) := by cases i <;> decide

lemma updStore_same (th : Bool → CThread) (i : Bool) (t : CThread) :
    updStore th i t i = t := by simp [updStore]

lemma updStore_other (th : Bool → CThread) (i : Bool) (t : CThread) (j : Bool)
    (h : j ≠ i) : updStore th i t j = th j := by simp [updStore, h]

lemma seqFx_filter_kill (u : Bool) (w : Bool) :
    ((seqFx u).map (fun e => (w, e))).filter (fun p => isKillE p.2) = [] := by
  cases u <;> rfl

lemma seqFx_filter_notkill (u : Bool) (w : Bool) :
    ((seqFx u).map (fun e => (w, e))).filter (fun p => !(isKillE p.2))
      = (seqFx u).map (fun e => (w, e)) := by
  cases u <;> rfl

lemma cstep_done (u : Bool) (s : CState) (t : CThread) (ht : t.todo = []) :
    cstep u s t = (s, t, []) := by
  simp [cstep, ht]

lemma cstep_rest (u : Bool) (s : CState) (t : CThread)
    (ht : t.todo = [CStep.rest]) :
    cstep u s t = (s, { t with todo := [] }, seqFx u) := by
  simp [cstep, ht]

lemma cstep_first_handled (u : Bool) (s : CState) (t : CThread) (pid : Nat)
    (hc : s.child = some pid) (hs : s.stopHandled = true)
    (ht : t.todo = [CStep.first, CStep.rest]) :
    cstep u s t = (s, { t with todo := [] },
      [Effect.kill pid (killArgOf t.signal)]) := by
  simp [cstep, ht, hs, killFxOf, hc]

lemma cstep_first_fresh (u : Bool) (s : CState) (t : CThread) (pid : Nat)
    (hc : s.child = some pid) (hs : s.stopHandled = false)
    (ht : t.todo = [CStep.first, CStep.rest]) :
    cstep u s t = ({ s with stopHandled := true }, { t with todo := [CStep.rest] },
      [Effect.kill pid (killArgOf t.signal)]) := by
  simp [cstep, ht, hs, killFxOf, hc]

lemma runC_mid (u : Bool) (pid : Nat) (w : Bool) (bs : List Bool) :
    ∀ (s : CState) (th : Bool → CThread),
    s.child = some pid → s.stopHandled = true →
    ((th w).todo = [CStep.rest] ∨ (th w).todo = []) →
    ((th (!w)).todo = [CStep.first, CStep.rest] ∨ (th (!w)).todo = []) →
    (((runC u bs s th).2.1 w).signal = (th w).signal)
    ∧ (((runC u bs s th).2.1 (!w)).signal = (th (!w)).signal)
    ∧ ((th w).todo = [] → ((runC u bs s th).2.1 w).todo = [])
    ∧ ((th (!w)).todo = [] → ((runC u bs s th).2.1 (!w)).todo = [])
    ∧ (((runC u bs s th).2.1 w).todo = [CStep.rest]
        ∨ ((runC u bs s th).2.1 w).todo = [])
    ∧ (((runC u bs s th).2.1 (!w)).todo = [CStep.first, CStep.rest]
        ∨ ((runC u bs s th).2.1 (!w)).todo = [])
    ∧ ((runC u bs s th).2.2.filter (fun p => !(isKillE p.2))
        = (if ((th w).todo ≠ [] ∧ ((runC u bs s th).2.1 w).todo = [])
            then (seqFx u).map (fun e => (w, e)) else []))
    ∧ ((runC u bs s th).2.2.filter (fun p => isKillE p.2)
        = (if ((th (!w)).todo ≠ [] ∧ ((runC u bs s th).2.1 (!w)).todo = [])
            then [((!w), Effect.kill pid (killArgOf ((th (!w)).signal)))] else [])) := by
  induction bs with
  | nil =>
    intro s th hc hs hw hl
    refine ⟨rfl, rfl, fun h => h, fun h => h, hw, hl, ?_, ?_⟩
    · rw [if_neg (fun hcon => hcon.1 hcon.2)]
      rfl
    · rw [if_neg (fun hcon => hcon.1 hcon.2)]
      rfl
  | cons b bs ih =>
    intro s th hc hs hw hl
    by_cases hb : b = w
    · subst hb
      rcases hw with hw | hw
      · have hone := cstep_rest u s (th b) hw
        simp only [runC, hone]
        obtain ⟨c1, c2, c3, c4, c5, c6, c7, c8⟩ :=
          ih s (updStore th b { th b with todo := ([] : List CStep) }) hc hs
            (Or.inr (by rw [updStore_same]))
            (by rw [updStore_other th b _ (!b) (bool_not_ne b)]; exact hl)
        refine ⟨?_, ?_, ?_, ?_, c5, c6, ?_, ?_⟩
        · rw [c1, updStore_same]
        · rw [c2, updStore_other th b _ (!b) (bool_not_ne b)]
        · intro h
          rw [hw] at h
          simp at h
        · intro h
          exact c4 (by rw [updStore_other th b _ (!b) (bool_not_ne b)]; exact h)
        · have hfw : ((runC u bs s
              (updStore th b { th b with todo := ([] : List CStep) })).2.1 b).todo = [] :=
            c3 (by rw [updStore_same])
          rw [List.filter_append, seqFx_filter_notkill, c7,
            if_neg (fun hcon => hcon.1 (by rw [updStore_same])),
            if_pos ⟨by rw [hw]; simp, hfw⟩]
          simp
        · rw [List.filter_append, seqFx_filter_kill, c8,
            updStore_other th b { th b with todo := ([] : List CStep) } (!b) (bool_not_ne b)]
          simp
      · have hone := cstep_done u s (th b) hw
        simp only [runC, hone]
        obtain ⟨c1, c2, c3, c4, c5, c6, c7, c8⟩ :=
          ih s (updStore th b (th b)) hc hs
            (Or.inr (by rw [updStore_same]; exact hw))
            (by rw [updStore_other th b _ (!b) (bool_not_ne b)]; exact hl)
        refine ⟨?_, ?_, ?_, ?_, c5, c6, ?_, ?_⟩
        · rw [c1, updStore_same]
        · rw [c2, updStore_other th b _ (!b) (bool_not_ne b)]
        · intro h
          exact c3 (by rw [updStore_same]; exact h)
        · intro h
          exact c4 (by rw [updStore_other th b _ (!b) (bool_not_ne b)]; exact h)
        · simp only [List.map_nil, List.nil_append]
          rw [c7, updStore_same th b (th b)]
        · simp only [List.map_nil, List.nil_append]
          rw [c8, updStore_other th b (th b) (!b) (bool_not_ne b)]
    · have hb2 : b = !w := by cases b <;> cases w <;> simp_all
      subst hb2
      rcases hl with hl | hl
      · have hone := cstep_first_handled u s (th (!w)) pid hc hs hl
        simp only [runC, hone]
        obtain ⟨c1, c2, c3, c4, c5, c6, c7, c8⟩ :=
          ih s (updStore th (!w) { th (!w) with todo := ([] : List CStep) }) hc hs
            (by rw [updStore_other th (!w) _ w (bool_ne_not w)]; exact hw)
            (Or.inr (by rw [updStore_same]))
        refine ⟨?_, ?_, ?_, ?_, c5, c6, ?_, ?_⟩
        · rw [c1, updStore_other th (!w) _ w (bool_ne_not w)]
        · rw [c2, updStore_same]
        · intro h
          exact c3 (by rw [updStore_other th (!w) _ w (bool_ne_not w)]; exact h)
        · intro h
          exact c4 (by rw [updStore_same])
        · have hnk : (([Effect.kill pid (killArgOf ((th (!w)).signal))]).map
              (fun e => ((!w), e))).filter (fun p => !(isKillE p.2)) = [] := rfl
          rw [List.filter_append, hnk, c7,
            updStore_other th (!w) { th (!w) with todo := ([] : List CStep) } w
              (bool_ne_not w)]
          simp
        · have hik : (([Effect.kill pid (killArgOf ((th (!w)).signal))]).map
              (fun e => ((!w), e))).filter (fun p => isKillE p.2)
              = [((!w), Effect.kill pid (killArgOf ((th (!w)).signal)))] := rfl
          rw [List.filter_append, hik, c8,
            if_neg (fun hcon => hcon.1 (by rw [updStore_same])),
            if_pos ⟨by rw [hl]; simp, c4 (by rw [updStore_same])⟩]
          simp
      · have hone := cstep_done u s (th (!w)) hl
        simp only [runC, hone]
        obtain ⟨c1, c2, c3, c4, c5, c6, c7, c8⟩ :=
          ih s (updStore th (!w) (th (!w))) hc hs
            (by rw [updStore_other th (!w) _ w (bool_ne_not w)]; exact hw)
            (Or.inr (by rw [updStore_same]; exact hl))
        refine ⟨?_, ?_, ?_, ?_, c5, c6, ?_, ?_⟩
        · rw [c1, updStore_other th (!w) _ w (bool_ne_not w)]
        · rw [c2, updStore_same]
        · intro h
          exact c3 (by rw [updStore_other th (!w) _ w (bool_ne_not w)]; exact h)
        · intro h
          exact c4 (by rw [updStore_same]; exact h)
        · simp only [List.map_nil, List.nil_append]
          rw [c7, updStore_other th (!w) (th (!w)) w (bool_ne_not w)]
        · simp only [List.map_nil, List.nil_append]
          rw [c8, updStore_same th (!w) (th (!w))]

/-- Two freshly triggered invocations of `handleSessionStop`, one per
trigger (thread `false` with `sig0`, thread `true` with `sig1`), each
about to run its synchronous prefix. -/
def freshPair (sig0 sig1 : Option String) : Bool → CThread :=
  fun i => { signal := if i then sig1 else sig0, todo := [CStep.first, CStep.rest] }

/-- A full concurrent session-stop scenario: a live worker `pid`, the
`sessionStopHandled` flag still false, and two invocations racing under
schedule `sched`. -/
def coordRun (u : Bool) (pid : Nat) (sig0 sig1 : Option String) (sched : List Bool) :
    CState × (Bool → CThread) × List (Bool × Effect) :=
  runC u sched { child := some pid, stopHandled := false } (freshPair sig0 sig1)

/-- C1: for two invocations of the Shutdown Coordinator racing under any
schedule that runs both to completion, the
telemetry-record/trace-upload/terminal-restore/process-exit sequence is
performed exactly once — the non-kill effects of the whole run are
precisely that sequence, in order, all performed by the first invocation
to be scheduled (the one that observed the flag false and set it within
its atomic synchronous prefix, before any suspending call) — while every
invocation, the loser included, still forwards its kill to the live
worker handle: the kill effects are exactly one per invocation, each
with its own forwarded signal. -/
theorem sessionStop_exactly_once (u : Bool) (pid : Nat) (sig0 sig1 : Option String)
    (b : Bool) (bs : List Bool)
    (h0 : ((coordRun u pid sig0 sig1 (b :: bs)).2.1 false).todo = [])
    (h1 : ((coordRun u pid sig0 sig1 (b :: bs)).2.1 true).todo = []) :
    (coordRun u pid sig0 sig1 (b :: bs)).2.2.filter (fun p => !(isKillE p.2))
      = (seqFx u).map (fun e => (b, e))
    ∧ (coordRun u pid sig0 sig1 (b :: bs)).2.2.filter (fun p => isKillE p.2)
      = [(b, Effect.kill pid (killArgOf ((freshPair sig0 sig1 b).signal))),
         ((!b), Effect.kill pid (killArgOf ((freshPair sig0 sig1 (!b)).signal)))] := by
  have hone := cstep_first_fresh u { child := some pid, stopHandled := false }
    (freshPair sig0 sig1 b) pid rfl rfl rfl
  unfold coordRun at h0 h1 ⊢
  simp only [runC, hone] at h0 h1 ⊢
  obtain ⟨c1, c2, c3, c4, c5, c6, c7, c8⟩ :=
    runC_mid u pid b bs { child := some pid, stopHandled := true }
      (updStore (freshPair sig0 sig1) b { freshPair sig0 sig1 b with todo := [CStep.rest] })
      rfl rfl
      (Or.inl (by rw [updStore_same]))
      (Or.inl (by rw [updStore_other _ _ _ _ (bool_not_ne b)]; rfl))
  have hfb : ((runC u bs { child := some pid, stopHandled := true }
      (updStore (freshPair sig0 sig1) b
        { freshPair sig0 sig1 b with todo := [CStep.rest] })).2.1 b).todo = [] := by
    cases b
    · exact h0
    · exact h1
  have hfnb : ((runC u bs { child := some pid, stopHandled := true }
      (updStore (freshPair sig0 sig1) b
        { freshPair sig0 sig1 b with todo := [CStep.rest] })).2.1 (!b)).todo = [] := by
    cases b
    · exact h1
    · exact h0
  constructor
  · have hknk : (([Effect.kill pid (killArgOf ((freshPair sig0 sig1 b).signal))]).map
        (fun e => (b, e))).filter (fun p => !(isKillE p.2)) = [] := rfl
    rw [List.filter_append, hknk, c7, if_pos ⟨by rw [updStore_same]; simp, hfb⟩]
    simp
  · have hkik : (([Effect.kill pid (killArgOf ((freshPair sig0 sig1 b).signal))]).map
        (fun e => (b, e))).filter (fun p => isKillE p.2)
        = [(b, Effect.kill pid (killArgOf ((freshPair sig0 sig1 b).signal)))] := rfl
    rw [List.filter_append, hkik, c8,
      if_pos ⟨by rw [updStore_other _ _ _ _ (bool_not_ne b)]; simp [freshPair], hfnb⟩,
      updStore_other _ _ _ _ (bool_not_ne b)]
    simp

theorem sessionStop_exactly_once_witness :
    ((coordRun true 5 (some "SIGINT") none [false, true, false]).2.1 false).todo = []
    ∧ ((coordRun true 5 (some "SIGINT") none [false, true, false]).2.1 true).todo = []
    ∧ (coordRun true 5 (some "SIGINT") none [false, true, false]).2.2.filter
        (fun p => !(isKillE p.2))
      = (seqFx true).map (fun e => (false, e))
    ∧ (coordRun true 5 (some "SIGINT") none [false, true, false]).2.2.filter
        (fun p => isKillE p.2)
      = [(false, Effect.kill 5 (KillArg.sig "SIGINT")),
         (true, Effect.kill 5 (KillArg.num 0))] := by
  have h := sessionStop_exactly_once true 5 (some "SIGINT") none false [true, false]
    (by decide) (by decide)
  refine ⟨by decide, by decide, h.1, ?_⟩
  rw [h.2]
  decide

end NextDev
